import Mathlib

/-!
Verification of the oraiswap limit-order matching engine, AMM pricing math and
converter against their natural-language specification.

The definitions below are a shallow embedding of the Rust sources:
  * `src/contracts/oraiswap_limit_order/src/orderbook.rs` (Order, get_price,
    fill_order, OrderBook::find_match_price, find_match_orders),
  * `src/contracts/oraiswap_limit_order/src/order.rs` (cancel_order,
    excecute_pair),
  * `src/packages/oraiswap/src/pair.rs` (compute_swap, compute_offer_amount),
  * `src/contracts/oraiswap_converter/src/contract.rs` (update_pair ratio
    computation, convert, convert_reverse).

Machine integers (Uint128 / Uint256) are embedded as `Nat`; cosmwasm `Decimal`
and `Decimal256` values are embedded by their atomics (fixed-point integers
scaled by 10^18).  Operations that can panic in Rust (overflow, underflow of
unchecked subtraction, unwrap of `None`, division by zero) are embedded in
`Except`, with the panic conditions spelled out explicitly.  Addresses are
embedded as `Nat` identifiers.
-/

/-- The atomic scale of cosmwasm `Decimal` and `Decimal256`: 10^18. -/
def decOne : Nat := 10 ^ 18

/-- Size bound of `Uint128`. -/
def U128 : Nat := 2 ^ 128

/-- Size bound of `Uint256`. -/
def U256 : Nat := 2 ^ 256

/-- Embedding of `Decimal::from_ratio a b`: atomics `a * 10^18 / b` (floor).  The Rust
function panics when `b = 0` or the atomics overflow `Uint128`; theorems about
this total model carry those side conditions as hypotheses. -/
def fromRatioDec (a b : Nat) : Nat := a * decOne / b

/-- Embedding of `Uint128 * Decimal` (also `Decimal * Uint128` and `Decimal * Decimal` share
this formula on atomics): `floor (u * atomics / 10^18)`. -/
def mulDec (u d : Nat) : Nat := u * d / decOne

/-- The `OrderDirection` enum of `oraiswap::limit_order`. -/
inductive OrderDirection
  | Buy
  | Sell
deriving DecidableEq, Repr, BEq

/-- The `OrderStatus` enum of `oraiswap::limit_order`. -/
inductive OrderStatus
  | Open
  | PartialFilled
  | Filling
  | Fulfilled
  | Cancel
deriving DecidableEq, Repr, BEq

/-- The `Order` record of `orderbook.rs`.  `bidder_addr` is an address
identifier. -/
structure Order where
  order_id : Nat
  direction : OrderDirection
  bidder_addr : Nat
  offer_amount : Nat
  ask_amount : Nat
  filled_offer_amount : Nat
  filled_ask_amount : Nat
  status : OrderStatus
deriving DecidableEq, Repr, BEq

/-- Embedding of `Order::get_price` (orderbook.rs lines 102-109): the raw ratio
(`ask/offer` for Buy, `offer/ask` for Sell) as a `Decimal`, then
`Decimal::from_ratio(price * Uint128::from(1000), Uint128::from(1000))`. -/
def get_price (o : Order) : Nat :=
  let price :=
    match o.direction with
    | .Buy => fromRatioDec o.ask_amount o.offer_amount
    | .Sell => fromRatioDec o.offer_amount o.ask_amount
  fromRatioDec (mulDec 1000 price) 1000

/-- Numerator of the raw price ratio of an order (`ask_amount` for Buy,
`offer_amount` for Sell); theorem-side shorthand. -/
def priceNumer (o : Order) : Nat :=
  match o.direction with
  | .Buy => o.ask_amount
  | .Sell => o.offer_amount

/-- Denominator of the raw price ratio of an order (`offer_amount` for Buy,
`ask_amount` for Sell); theorem-side shorthand. -/
def priceDenom (o : Order) : Nat :=
  match o.direction with
  | .Buy => o.offer_amount
  | .Sell => o.ask_amount

/-- Embedding of `Order::fill_order` (orderbook.rs lines 60-79), restricted to the order
record itself: accumulate the filled amounts, set `PartialFilled`, and close
the order as `Fulfilled` once `filled_ask_amount >= ask_amount` or
`filled_offer_amount == offer_amount`.  A `Fulfilled` result is removed from
storage by the caller side of the source. -/
def fill_order (o : Order) (ask_amount offer_amount : Nat) : Order :=
  let o1 : Order :=
    { o with
      filled_ask_amount := o.filled_ask_amount + ask_amount
      filled_offer_amount := o.filled_offer_amount + offer_amount
      status := .PartialFilled }
  if o1.ask_amount ≤ o1.filled_ask_amount ∨ o1.filled_offer_amount = o1.offer_amount then
    { o1 with status := .Fulfilled }
  else
    o1

/-! ### AMM pricing engine (`pair.rs`) -/

/-- Failure modes of the AMM pricing functions: the two `ContractError`
variants actually returned, plus `Panic` for aborts of the Rust runtime
(overflow, underflow, division by zero). -/
inductive SwapError
  | OfferPoolIsZero
  | TooSmallOfferAmount
  | Panic
deriving DecidableEq, Repr

/-- Embedding of `Uint256` multiplication: panics past `2^256`. -/
def u256Mul (a b : Nat) : Except SwapError Nat :=
  if a * b < U256 then .ok (a * b) else .error .Panic

/-- Embedding of `Uint256` (and `Decimal256`) subtraction: panics on underflow. -/
def u256Sub (a b : Nat) : Except SwapError Nat :=
  if b ≤ a then .ok (a - b) else .error .Panic

/-- Embedding of `Uint256::multiply_ratio a n d`: `floor (a * n / d)` computed with a
512-bit intermediate; panics when `d = 0` or the quotient does not fit
`Uint256`. -/
def multiplyRatioU256 (a n d : Nat) : Except SwapError Nat :=
  if d = 0 then .error .Panic
  else if a * n / d < U256 then .ok (a * n / d) else .error .Panic

/-- Embedding of `Decimal256::from_ratio a b` (also `Decimal256` division on atomics):
atomics `floor (a * 10^18 / b)`. -/
def dec256FromRat (a b : Nat) : Except SwapError Nat :=
  multiplyRatioU256 a decOne b

/-- Embedding of `Uint256 * Decimal256` (either side): `multiply_ratio u atomics 10^18`. -/
def u256MulDec (u atomics : Nat) : Except SwapError Nat :=
  multiplyRatioU256 u atomics decOne

/-- Embedding of `compute_swap` (pair.rs lines 104-139).  Inputs are `Uint128` values
(pools, offer amount) and the commission rate as `Decimal256` atomics.  The
final `u128::from_le_bytes(x.to_le_bytes()[0..16])` downcast keeps the low 128
bits, i.e. reduces mod `2^128`, without any range check. -/
def compute_swap (offer_pool ask_pool offer_amount commission_rate : Nat) :
    Except SwapError (Nat × Nat × Nat) :=
  if offer_pool = 0 then .error .OfferPoolIsZero
  else do
    let cp ← u256Mul offer_pool ask_pool
    let r ← dec256FromRat cp (offer_pool + offer_amount)
    let x ← u256MulDec 1 r
    let return_amount ← u256Sub ask_pool x
    let r2 ← dec256FromRat ask_pool offer_pool
    let y ← u256MulDec offer_amount r2
    let spread_amount ← u256Sub y return_amount
    let commission_amount ← u256MulDec return_amount commission_rate
    let return_amount ← u256Sub return_amount commission_amount
    .ok (return_amount % U128, spread_amount % U128, commission_amount % U128)

/-- Embedding of `compute_offer_amount` (pair.rs lines 141-184), same conventions as
`compute_swap`. -/
def compute_offer_amount (offer_pool ask_pool ask_amount commission_rate : Nat) :
    Except SwapError (Nat × Nat × Nat) := do
  let cp ← u256Mul offer_pool ask_pool
  let one_minus_commission ← u256Sub decOne commission_rate
  let inv_one_minus_commission ← dec256FromRat decOne one_minus_commission
  let ask_gross ← u256MulDec ask_amount inv_one_minus_commission
  let denom ← u256Sub ask_pool ask_gross
  let q ← multiplyRatioU256 1 cp denom
  let offer_amount ← u256Sub q offer_pool
  let before_commission_deduction ← u256MulDec ask_amount inv_one_minus_commission
  let r2 ← dec256FromRat ask_pool offer_pool
  let before_spread_deduction ← u256MulDec offer_amount r2
  let spread_amount :=
    if before_commission_deduction < before_spread_deduction then
      before_spread_deduction - before_commission_deduction
    else 0
  let commission_amount ← u256MulDec before_commission_deduction commission_rate
  if spread_amount = 0 ∨ commission_amount = 0 then .error .TooSmallOfferAmount
  else .ok (offer_amount % U128, spread_amount % U128, commission_amount % U128)

/-- Truncated pre-commission return of `compute_swap`:
`ask_pool - floor (cp / (offer_pool + offer_amount))` (the nested
`Decimal256` truncations collapse to one integer division). -/
def swapReturnRaw (offer_pool ask_pool offer_amount : Nat) : Nat :=
  ask_pool - offer_pool * ask_pool / (offer_pool + offer_amount)

/-- Truncated minuend of the spread computation of `compute_swap`:
`floor (offer_amount * floor (ask_pool * 10^18 / offer_pool) / 10^18)`. -/
def swapSpreadLhs (offer_pool ask_pool offer_amount : Nat) : Nat :=
  offer_amount * (ask_pool * decOne / offer_pool) / decOne

/-- Truncated commission of `compute_swap`. -/
def swapCommissionAmt (offer_pool ask_pool offer_amount commission_rate : Nat) : Nat :=
  swapReturnRaw offer_pool ask_pool offer_amount * commission_rate / decOne

/-- Atomics of `Decimal256::one() / (Decimal256::one() - commission_rate)`,
the gross-up factor of `compute_offer_amount`. -/
def invOneMinusComm (commission_rate : Nat) : Nat :=
  decOne * decOne / (decOne - commission_rate)

/-- The value `ask_amount * inv_one_minus_commission` of `compute_offer_amount`: the
commission-grossed-up ask amount. -/
def beforeCommission (ask_amount commission_rate : Nat) : Nat :=
  ask_amount * invOneMinusComm commission_rate / decOne

/-- The offer amount solved by `compute_offer_amount`:
`cp / (ask_pool - grossed_ask) - offer_pool`. -/
def offerSolved (offer_pool ask_pool ask_amount commission_rate : Nat) : Nat :=
  offer_pool * ask_pool / (ask_pool - beforeCommission ask_amount commission_rate) - offer_pool

/-- The spread amount computed by `compute_offer_amount`. -/
def offerSpreadAmt (offer_pool ask_pool ask_amount commission_rate : Nat) : Nat :=
  let bc := beforeCommission ask_amount commission_rate
  let bs := offerSolved offer_pool ask_pool ask_amount commission_rate *
      (ask_pool * decOne / offer_pool) / decOne
  if bc < bs then bs - bc else 0

/-- The commission amount computed by `compute_offer_amount`. -/
def offerCommissionAmt (ask_amount commission_rate : Nat) : Nat :=
  beforeCommission ask_amount commission_rate * commission_rate / decOne

/-! ### Order book and matching pass (`orderbook.rs`, `order.rs`)

The order book of one pair is embedded as the list of stored orders; the tick
index becomes the multiset of `get_price` values of the stored orders of a
direction, and the by-price index becomes filtering by `get_price` and
direction with ascending `order_id` (the storage keys of a tick are the order
ids, iterated ascending). -/

/-- Insert an order into a list sorted by ascending `order_id`. -/
def insertById (o : Order) : List Order → List Order
  | [] => [o]
  | x :: xs => if o.order_id ≤ x.order_id then o :: x :: xs else x :: insertById o xs

/-- Sort orders by ascending `order_id` (FIFO of a tick: storage iterates the
order-id keys ascending). -/
def sortById (l : List Order) : List Order := l.foldr insertById []

/-- The tick prices of a direction: `get_price` of every stored order of that
direction (each stored order sits in the tick bucket keyed by its price). -/
def tickPrices (orders : List Order) (d : OrderDirection) : List Nat :=
  (orders.filter (fun o => o.direction == d)).map get_price

/-- Insert into a list of `Nat` sorted ascending. -/
def insertNat (x : Nat) : List Nat → List Nat
  | [] => [x]
  | y :: ys => if x ≤ y then x :: y :: ys else y :: insertNat x ys

/-- Sort a list of `Nat` ascending. -/
def sortNat (l : List Nat) : List Nat := l.foldr insertNat []

/-- Highest tick price of a direction (`OrderBook::highest_price`): `none`
when the direction has no tick (the source returns a `found = false` flag). -/
def maxPrice : List Nat → Option Nat
  | [] => none
  | x :: xs => some (xs.foldl Nat.max x)

/-- Lowest tick price of a direction (`OrderBook::lowest_price`). -/
def minPrice : List Nat → Option Nat
  | [] => none
  | x :: xs => some (xs.foldl Nat.min x)

/-- Embedding of `OrderBook::find_match_price` (orderbook.rs lines 265-304).  With a
precision, scan the sell ticks ascending for the first sell price with
`sell <= highest_buy <= sell * (1 + precision)`; without one, match exactly
when `highest_buy >= lowest_sell`. -/
def find_match_price (precision : Option Nat) (orders : List Order) :
    Option (Nat × Nat) :=
  match maxPrice (tickPrices orders .Buy) with
  | none => none
  | some highest_buy_price =>
    match precision with
    | some p =>
      let precision_factor := decOne + p
      match (sortNat ((tickPrices orders .Sell).dedup)).find?
          (fun sell_price =>
            decide (sell_price ≤ highest_buy_price) &&
            decide (highest_buy_price ≤ mulDec sell_price precision_factor)) with
      | some sell_price => some (highest_buy_price, sell_price)
      | none => none
    | none =>
      match minPrice (tickPrices orders .Sell) with
      | none => none
      | some lowest_sell_price =>
        if lowest_sell_price ≤ highest_buy_price then
          some (highest_buy_price, lowest_sell_price)
        else none

/-- Embedding of `OrderBook::find_match_orders`: all stored orders of the direction at the
given tick price, ascending by `order_id`. -/
def find_match_orders (orders : List Order) (price : Nat) (d : OrderDirection) :
    List Order :=
  sortById (orders.filter (fun o => o.direction == d && get_price o == price))

/-- Failure modes of the matching pass: `panicErr` for runtime aborts
(`unwrap` of `None` or of a failed `checked_div`), `stdErr` for a propagated
`StdError` of `checked_sub`. -/
inductive ExecError
  | panicErr
  | stdErr
deriving DecidableEq, Repr

/-- A transfer instruction produced by the pass: `asset_idx` indexes
`asset_infos` (0 = base side, 1 = quote side), paid to `recipient`. -/
structure Transfer where
  asset_idx : Nat
  amount : Nat
  recipient : Nat
deriving DecidableEq, Repr

/-- Accumulated effects of the matching pass: emitted messages, the two
executor reward balances (`reward_assets[0]`, `reward_assets[1]`) and the
fully-matched order count. -/
structure ExecState where
  messages : List Transfer
  reward0 : Nat
  reward1 : Nat
  total_orders : Nat
deriving DecidableEq, Repr

/-- Embedding of `Uint128::checked_sub` propagated with `?`: a `StdError` on underflow. -/
def checkedSub (a b : Nat) : Except ExecError Nat :=
  if b ≤ a then .ok (a - b) else .error .stdErr

/-- Embedding of `Uint128::checked_div(..).unwrap()`: panics on division by zero. -/
def checkedDivUnwrap (a b : Nat) : Except ExecError Nat :=
  if b = 0 then .error .panicErr else .ok (a / b)

/-- The execution-price selection of `excecute_pair` (order.rs lines 188 and
206-212): in one-price mode the buy price (set before the inner loop and
never overwritten); otherwise the buy price when `sell.order_id <
buy.order_id`, else the sell price. -/
def selectMatchPrice (match_one_price : Bool) (buy_order sell_order : Order) : Nat :=
  if match_one_price then get_price buy_order
  else if sell_order.order_id < buy_order.order_id then get_price buy_order
  else get_price sell_order

/-- One iteration of the inner loop of `excecute_pair` (order.rs lines
190-346) for a fixed buy order and one sell order.  Returns the mutated buy
order, the mutated sell order and the accumulated effects.  An order whose
`status` ends `Fulfilled` has been removed from storage by the source. -/
def matchSellStep (match_one_price : Bool) (commission_rate : Nat)
    (buy_order sell_order : Order) (st : ExecState) :
    Except ExecError (Order × Order × ExecState) :=
  if sell_order.status = .Fulfilled ∨ buy_order.status = .Fulfilled then
    .ok (buy_order, sell_order, st)
  else do
    let lef_sell_offer_amount ← checkedSub sell_order.offer_amount sell_order.filled_offer_amount
    let lef_buy_offer_amount ← checkedSub buy_order.offer_amount buy_order.filled_offer_amount
    if lef_buy_offer_amount = 0 ∨ lef_sell_offer_amount = 0 then
      .ok (buy_order, sell_order, st)
    else
      let sell_order : Order := { sell_order with status := .Filling }
      let match_price := selectMatchPrice match_one_price buy_order sell_order
      let lef_sell_ask_amount := mulDec lef_sell_offer_amount match_price
      let lef_buy_ask_amount ← checkedDivUnwrap (lef_buy_offer_amount * decOne) match_price
      let sell_ask_amount := Nat.min lef_buy_offer_amount lef_sell_ask_amount
      let sell_offer_div ← checkedDivUnwrap (sell_ask_amount * decOne) match_price
      let sell_offer_amount := Nat.min sell_offer_div lef_sell_offer_amount
      if lef_buy_ask_amount = 0 then
        let st :=
          if 0 < lef_buy_offer_amount then
            { st with reward1 := st.reward1 + lef_buy_offer_amount }
          else st
        .ok ({ buy_order with status := .Fulfilled },
             { sell_order with status := .Open }, st)
      else if lef_sell_ask_amount = 0 ∨ sell_offer_amount = 0 then
        let st :=
          if 0 < lef_sell_offer_amount then
            { st with reward0 := st.reward0 + lef_sell_offer_amount }
          else st
        .ok ({ buy_order with status := .Open },
             { sell_order with status := .Fulfilled }, st)
      else do
        let sell_order := fill_order sell_order sell_ask_amount sell_offer_amount
        let askWithState ←
          if sell_ask_amount ≠ 0 then do
            let reward_amount := mulDec sell_ask_amount commission_rate
            let amt ← checkedSub sell_ask_amount reward_amount
            Except.ok (amt,
              { st with
                reward1 := st.reward1 + reward_amount
                messages := st.messages ++ [⟨1, amt, sell_order.bidder_addr⟩] })
          else Except.ok (sell_ask_amount, st)
        let sell_ask_final := askWithState.1
        let st := askWithState.2
        let sellWithState :=
          if sell_order.status = .Fulfilled then
            (sell_order, { st with total_orders := st.total_orders + 1 })
          else ({ sell_order with status := .Open }, st)
        let sell_order := sellWithState.1
        let st := sellWithState.2
        if sell_offer_amount ≠ 0 then do
          let buy_order := fill_order buy_order sell_offer_amount sell_ask_final
          let reward_amount := mulDec sell_offer_amount commission_rate
          let amt ← checkedSub sell_offer_amount reward_amount
          let st :=
            { st with
              reward0 := st.reward0 + reward_amount
              messages := st.messages ++ [⟨0, amt, buy_order.bidder_addr⟩] }
          .ok (buy_order, sell_order, st)
        else .ok (buy_order, sell_order, st)

/-- The inner loop of `excecute_pair`: run `matchSellStep` over the sell
orders in FIFO order, threading the buy order and the effects, and keeping
the mutated sell orders in place. -/
def innerLoop (match_one_price : Bool) (commission_rate : Nat) (buy_order : Order) :
    List Order → ExecState → Except ExecError (Order × List Order × ExecState)
  | [], st => .ok (buy_order, [], st)
  | s :: rest, st => do
    let r1 ← matchSellStep match_one_price commission_rate buy_order s st
    let r2 ← innerLoop match_one_price commission_rate r1.1 rest r1.2.2
    .ok (r2.1, r1.2.1 :: r2.2.1, r2.2.2)

/-- The outer loop of `excecute_pair` (order.rs lines 183-354): each buy order
is set `Filling`, matched against the sell list, counted when `Fulfilled`
(removed) and otherwise re-stored as `Open`. -/
def outerLoop (match_one_price : Bool) (commission_rate : Nat) :
    List Order → List Order → ExecState →
    Except ExecError (List Order × List Order × ExecState)
  | [], sells, st => .ok ([], sells, st)
  | b :: brest, sells, st => do
    let b : Order := { b with status := .Filling }
    let r1 ← innerLoop match_one_price commission_rate b sells st
    let bDone :=
      if r1.1.status = .Fulfilled then
        (r1.1, { r1.2.2 with total_orders := r1.2.2.total_orders + 1 })
      else ({ r1.1 with status := .Open }, r1.2.2)
    let r2 ← outerLoop match_one_price commission_rate brest r1.2.1 bDone.2
    .ok (bDone.1 :: r2.1, r2.2.1, r2.2.2)

/-- The final outcome of one matching pass: the mutated matched buy and sell
orders (those with `status = Fulfilled` were removed from storage, the others
re-stored), the emitted transfer messages, the executor reward balances and
the matched-order count. -/
structure ExecResult where
  buys : List Order
  sells : List Order
  messages : List Transfer
  reward0 : Nat
  reward1 : Nat
  total_orders : Nat
deriving DecidableEq, Repr

/-- Embedding of `excecute_pair` (order.rs lines 133-365) over the order book of one pair.
`commission_rate` is the configured rate as `Decimal` atomics, `precision` the
optional book precision.  Line 167 of the source unwraps the `Option`
returned by `find_match_price`: when no cross exists the pass panics. -/
def excecute_pair (commission_rate : Nat) (precision : Option Nat)
    (orders : List Order) : Except ExecError ExecResult :=
  match find_match_price precision orders with
  | none => .error .panicErr
  | some (best_buy_price, best_sell_price) =>
    let match_one_price := best_buy_price == best_sell_price
    let match_buy_orders := find_match_orders orders best_buy_price .Buy
    let match_sell_orders := find_match_orders orders best_sell_price .Sell
    match outerLoop match_one_price commission_rate match_buy_orders
        match_sell_orders ⟨[], 0, 0, 0⟩ with
    | .error e => .error e
    | .ok (buys, sells, st) =>
      .ok ⟨buys, sells, st.messages, st.reward0, st.reward1, st.total_orders⟩

/-! ### Cancellation (`order.rs` lines 76-131) -/

/-- Failure modes of `cancel_order`: the three `ContractError` variants of the
source plus `StdE` for a propagated `StdError` (order lookup failure or
`checked_sub` underflow). -/
inductive CancelError
  | OrderFulfilled
  | OrderIsFilling
  | Unauthorized
  | StdE
deriving DecidableEq, Repr

/-- Embedding of `cancel_order` over the stored orders of the pair: look the order up by
id, reject `Fulfilled`, `Filling` and foreign callers, refund
`offer_amount - filled_offer_amount` (quote side `asset_infos[1]` for Buy,
base side `asset_infos[0]` for Sell) when positive, and remove the order. -/
def cancel_order (orders : List Order) (order_id sender : Nat) :
    Except CancelError (List Transfer × List Order) :=
  match orders.find? (fun o => o.order_id == order_id) with
  | none => .error .StdE
  | some o =>
    if o.status = .Fulfilled then .error .OrderFulfilled
    else if o.status = .Filling then .error .OrderIsFilling
    else if o.bidder_addr ≠ sender then .error .Unauthorized
    else if o.filled_offer_amount ≤ o.offer_amount then
      let left_offer_amount := o.offer_amount - o.filled_offer_amount
      let refund_idx : Nat := match o.direction with | .Buy => 1 | .Sell => 0
      .ok
        (if 0 < left_offer_amount then [⟨refund_idx, left_offer_amount, sender⟩] else [],
         orders.eraseP (fun x => x.order_id == order_id))
    else .error .StdE

/-! ### Converter (`oraiswap_converter/src/contract.rs`) -/

/-- The ratio stored by `update_pair` (contract.rs lines 138-144) as `Decimal`
atomics: `Decimal::from_ratio (10^to_decimals) (10^from_decimals)`. -/
def update_pair_rate (from_decimals to_decimals : Nat) : Nat :=
  fromRatioDec (10 ^ to_decimals) (10 ^ from_decimals)

/-- Embedding of `convert` (contract.rs line 74 and line 175): the forwarded destination
amount is `amount * ratio` (`Uint128 * Decimal`, floor). -/
def convert_amount (amount rate : Nat) : Nat := mulDec amount rate

/-- Modelled from the spec: `Converter128::checked_div_decimal`
(`oraiswap::math`) is not under `src/`; per the spec `convert_reverse`
divides the incoming amount by the registered ratio, checked, failing on a
division producing an unrepresentable result (ratio zero or a quotient
outside `Uint128`). -/
def checked_div_decimal (amount rate : Nat) : Option Nat :=
  if rate = 0 then none
  else if amount * decOne / rate < U128 then some (amount * decOne / rate)
  else none

/-! ## Theorems -/

/-- Reduction of a successful bind in the `Except` monad. -/
theorem bindOkHelper {ε α β : Type} (a : α) (f : α → Except ε β) :
    (Bind.bind (Except.ok a) f : Except ε β) = f a := rfl

/-- Reduction of a failing bind in the `Except` monad. -/
theorem bindErrHelper {ε α β : Type} (e : ε) (f : α → Except ε β) :
    (Bind.bind (Except.error e) f : Except ε β) = .error e := rfl

/-- Nested floor divisions by the decimal scale collapse: dividing
`a * 10^18` by `b` and then by `10^18` is dividing `a` by `b`. -/
theorem scaled_div_cancel (a b : Nat) : a * decOne / b / decOne = a / b := by
  rw [Nat.div_div_eq_div_mul]
  exact Nat.mul_div_mul_right a b (by norm_num [decOne])

/-- Closed form of `get_price`: the stored tick price of an order is the raw
ratio truncated to three fractional decimal digits, with atomics
`(1000 * numerator / denominator) * 10^15`. -/
theorem get_price_formula (o : Order) :
    get_price o = 1000 * priceNumer o / priceDenom o * 10 ^ 15 := by
  have key : ∀ a b : Nat, fromRatioDec (mulDec 1000 (fromRatioDec a b)) 1000 =
      1000 * a / b * 10 ^ 15 := by
    intro a b
    have hE : decOne = 1000 * 10 ^ 15 := by norm_num [decOne]
    unfold fromRatioDec mulDec
    rw [hE]
    rw [Nat.mul_div_mul_left (a * (1000 * 10 ^ 15) / b) (10 ^ 15) (by norm_num)]
    rw [Nat.div_div_eq_div_mul]
    have h1 : a * (1000 * 10 ^ 15) = a * 1000 * 10 ^ 15 := by ring
    rw [h1, Nat.mul_div_mul_right (a * 1000) b (by norm_num)]
    have h2 : a * 1000 / b * (1000 * 10 ^ 15) = 1000 * (a * 1000 / b * 10 ^ 15) := by ring
    rw [h2, Nat.mul_div_cancel_left _ (by norm_num : (0:Nat) < 1000)]
    rw [Nat.mul_comm a 1000]
  unfold get_price priceNumer priceDenom
  cases o.direction <;> exact key _ _

/-- Filling never changes the direction of an order. -/
theorem fill_order_direction (o : Order) (a b : Nat) :
    (fill_order o a b).direction = o.direction := by
  unfold fill_order; dsimp only; split <;> rfl

/-- Filling never changes the offer amount of an order. -/
theorem fill_order_offer_amount (o : Order) (a b : Nat) :
    (fill_order o a b).offer_amount = o.offer_amount := by
  unfold fill_order; dsimp only; split <;> rfl

/-- Filling never changes the ask amount of an order. -/
theorem fill_order_ask_amount (o : Order) (a b : Nat) :
    (fill_order o a b).ask_amount = o.ask_amount := by
  unfold fill_order; dsimp only; split <;> rfl

/-- Filling adds exactly the offer argument to the filled offer amount. -/
theorem fill_order_filled_offer (o : Order) (a b : Nat) :
    (fill_order o a b).filled_offer_amount = o.filled_offer_amount + b := by
  unfold fill_order; dsimp only; split <;> rfl

/-- One fill leaves the derived price of an order unchanged. -/
theorem get_price_fill_order (o : Order) (a b : Nat) :
    get_price (fill_order o a b) = get_price o := by
  rw [get_price_formula, get_price_formula]
  unfold priceNumer priceDenom
  rw [fill_order_direction, fill_order_offer_amount, fill_order_ask_amount]

/-- Claim C9: for every Order, the price derived from its
(offer_amount, ask_amount) is the same after every sequence of fill
operations as at creation: filling mutates only the filled amounts and the
status, never offer_amount or ask_amount. -/
theorem order_price_constant_under_fills (o : Order) (fills : List (Nat × Nat)) :
    (fills.foldl (fun acc p => fill_order acc p.1 p.2) o).offer_amount = o.offer_amount ∧
    (fills.foldl (fun acc p => fill_order acc p.1 p.2) o).ask_amount = o.ask_amount ∧
    get_price (fills.foldl (fun acc p => fill_order acc p.1 p.2) o) = get_price o := by
  induction fills generalizing o with
  | nil => exact ⟨rfl, rfl, rfl⟩
  | cons p ps ih =>
    simp only [List.foldl_cons]
    obtain ⟨h1, h2, h3⟩ := ih (fill_order o p.1 p.2)
    exact ⟨h1.trans (fill_order_offer_amount o p.1 p.2),
           h2.trans (fill_order_ask_amount o p.1 p.2),
           h3.trans (get_price_fill_order o p.1 p.2)⟩

/-- Claim C10: `get_price` does not return the exact derived ratio; it
truncates it down to three fractional decimal digits (atomics
`(1000 * numerator / denominator) * 10^15`, i.e. the value
`floor (ratio * 1000) / 1000`), so two orders whose exact ratios agree up to
the third decimal digit share the same price and land on the same tick.  The
hypotheses delimit the domain on which the Rust code does not panic
(positive denominator, price atomics representable in `Uint128`). -/
theorem get_price_truncation (o o2 : Order)
    (_h1 : 0 < priceDenom o)
    (_h2 : fromRatioDec (priceNumer o) (priceDenom o) < U128)
    (_h3 : 0 < priceDenom o2)
    (_h4 : fromRatioDec (priceNumer o2) (priceDenom o2) < U128) :
    get_price o = 1000 * priceNumer o / priceDenom o * 10 ^ 15 ∧
    (1000 * priceNumer o / priceDenom o = 1000 * priceNumer o2 / priceDenom o2 →
      get_price o = get_price o2) := by
  exact ⟨get_price_formula o,
    fun h => by rw [get_price_formula o, get_price_formula o2, h]⟩

/-- Claim C10 witness: a Buy order asking 3333 for 10000 has the truncated
price 0.333; a Buy order asking 3334 for 10000 (exact ratio 0.3334, equal up
to the third decimal digit) lands on the same tick. -/
theorem get_price_truncation_witness :
    get_price ⟨1, .Buy, 5, 10000, 3333, 0, 0, .Open⟩ = 333 * 10 ^ 15 ∧
    get_price ⟨1, .Buy, 5, 10000, 3333, 0, 0, .Open⟩ =
      get_price ⟨2, .Buy, 6, 10000, 3334, 0, 0, .Open⟩ := by
  have h := get_price_truncation ⟨1, .Buy, 5, 10000, 3333, 0, 0, .Open⟩
    ⟨2, .Buy, 6, 10000, 3334, 0, 0, .Open⟩ (by decide) (by decide) (by decide) (by decide)
  exact ⟨h.1.trans (by decide), h.2 (by decide)⟩

/-- Claim C1 (amended): in `excecute_pair`, when the best prices differ
(one-price mode off), the execution price of a pairing is the price of
whichever of the two orders has the HIGHER order_id: the buy price when the
sell order was placed earlier, the sell price otherwise (order.rs lines
206-212; the lower-id rule of the claim holds only in the unused
`distribute_order_to_orders` variant of orderbook.rs). -/
theorem selectMatchPrice_higher_id (buy_order sell_order : Order) :
    (sell_order.order_id < buy_order.order_id →
      selectMatchPrice false buy_order sell_order = get_price buy_order) ∧
    (buy_order.order_id ≤ sell_order.order_id →
      selectMatchPrice false buy_order sell_order = get_price sell_order) := by
  unfold selectMatchPrice
  constructor
  · intro h; simp [h]
  · intro h; simp [Nat.not_lt.mpr h]

/-- Claim C1 witness: with the sell order placed first (id 1) and the buy
order second (id 2), the selected execution price is the buy price. -/
theorem selectMatchPrice_higher_id_witness :
    selectMatchPrice false ⟨2, .Buy, 22, 150, 300, 0, 0, .Open⟩
        ⟨1, .Sell, 11, 100, 100, 0, 0, .Open⟩ =
      get_price ⟨2, .Buy, 22, 150, 300, 0, 0, .Open⟩ :=
  (selectMatchPrice_higher_id ⟨2, .Buy, 22, 150, 300, 0, 0, .Open⟩
    ⟨1, .Sell, 11, 100, 100, 0, 0, .Open⟩).1 (by decide)

/-- Claim C1 counterexample: sell order 1 (100 base for 100 quote, price
1.000) rests; buy order 2 (150 quote for 300 base, price 2.000) arrives.
The pass prices the fill at the buy price (the HIGHER id): the seller hands
over 75 base and receives 150 quote (75 times price 2.000), not the 75
quote that the lower-id price 1.000 of the claim would give. -/
theorem c1_lower_id_price_refuted :
    selectMatchPrice false ⟨2, .Buy, 22, 150, 300, 0, 0, .Open⟩
        ⟨1, .Sell, 11, 100, 100, 0, 0, .Open⟩ =
      get_price ⟨2, .Buy, 22, 150, 300, 0, 0, .Open⟩ ∧
    get_price ⟨2, .Buy, 22, 150, 300, 0, 0, .Open⟩ ≠
      get_price ⟨1, .Sell, 11, 100, 100, 0, 0, .Open⟩ ∧
    excecute_pair 1000000000000000 none
        [⟨1, .Sell, 11, 100, 100, 0, 0, .Open⟩, ⟨2, .Buy, 22, 150, 300, 0, 0, .Open⟩] =
      .ok ⟨[⟨2, .Buy, 22, 150, 300, 150, 75, .Fulfilled⟩],
           [⟨1, .Sell, 11, 100, 100, 75, 150, .Fulfilled⟩],
           [⟨1, 150, 11⟩, ⟨0, 75, 22⟩], 0, 0, 2⟩ ∧
    mulDec 75 (get_price ⟨1, .Sell, 11, 100, 100, 0, 0, .Open⟩) = 75 ∧
    mulDec 75 (get_price ⟨2, .Buy, 22, 150, 300, 0, 0, .Open⟩) = 150 := by
  refine ⟨by decide, by decide, by rfl, by decide, by decide⟩

/-- Claim C2: on an order book in which no buy tick crosses any sell tick
(here: one Buy order and no Sell orders), `find_match_price` returns no
match, and `excecute_pair` unwraps that `None` (order.rs line 167) and
panics, aborting the invocation instead of succeeding with an empty message
list as the claim states. -/
theorem excecute_pair_no_cross_panics :
    find_match_price none [⟨1, .Buy, 5, 100, 100, 0, 0, .Open⟩] = none ∧
    excecute_pair 1000000000000000 none [⟨1, .Buy, 5, 100, 100, 0, 0, .Open⟩] =
      .error .panicErr := by
  exact ⟨rfl, rfl⟩

/-- Claim C3 counterexample: in the two-order pass of
`c1_lower_id_price_refuted`, the resting sell order (offer 100 base, ask 100
quote) ends with `filled_ask_amount = 150 > 100 = ask_amount`: a fill during
a matching pass violates the claimed invariant. -/
theorem c3_filled_ask_exceeds_ask :
    excecute_pair 1000000000000000 none
        [⟨1, .Sell, 11, 100, 100, 0, 0, .Open⟩, ⟨2, .Buy, 22, 150, 300, 0, 0, .Open⟩] =
      .ok ⟨[⟨2, .Buy, 22, 150, 300, 150, 75, .Fulfilled⟩],
           [⟨1, .Sell, 11, 100, 100, 75, 150, .Fulfilled⟩],
           [⟨1, 150, 11⟩, ⟨0, 75, 22⟩], 0, 0, 2⟩ ∧
    ¬ ((⟨1, .Sell, 11, 100, 100, 75, 150, .Fulfilled⟩ : Order).filled_ask_amount ≤
       (⟨1, .Sell, 11, 100, 100, 75, 150, .Fulfilled⟩ : Order).ask_amount) := by
  exact ⟨by rfl, by decide⟩

/-- Claim C3 (amended): the offer-side half of the invariant survives:
`fill_order` preserves `filled_offer_amount <= offer_amount` whenever the
offer fill does not exceed the remaining unfilled offer (which the matching
pass guarantees through its `min` caps); the ask-side half fails, as
`c3_filled_ask_exceeds_ask` shows. -/
theorem fill_order_offer_invariant (o : Order) (a b : Nat)
    (h1 : o.filled_offer_amount ≤ o.offer_amount)
    (h2 : b ≤ o.offer_amount - o.filled_offer_amount) :
    (fill_order o a b).filled_offer_amount ≤ (fill_order o a b).offer_amount := by
  rw [fill_order_offer_amount, fill_order_filled_offer]
  omega

/-- Claim C3 witness: a concrete fill within the remaining offer keeps the
offer-side invariant. -/
theorem fill_order_offer_invariant_witness :
    2 ≤ 10 ∧ (3:Nat) ≤ 10 - 2 ∧
    (fill_order ⟨1, .Sell, 3, 10, 10, 2, 2, .Open⟩ 1 3).filled_offer_amount ≤
      (fill_order ⟨1, .Sell, 3, 10, 10, 2, 2, .Open⟩ 1 3).offer_amount :=
  ⟨by decide, by decide,
   fill_order_offer_invariant ⟨1, .Sell, 3, 10, 10, 2, 2, .Open⟩ 1 3 (by decide) (by decide)⟩

/-- Claim C7: `cancel_order` fails `OrderFulfilled` on a Fulfilled order,
`OrderIsFilling` on a Filling order, `Unauthorized` when the caller is not
the bidder; otherwise it refunds `offer_amount - filled_offer_amount` to the
bidder with exactly one transfer when positive (none when zero) and removes
the order from storage. -/
theorem cancel_order_spec (orders : List Order) (oid sender : Nat) (o : Order)
    (hfind : orders.find? (fun x => x.order_id == oid) = some o) :
    (o.status = .Fulfilled → cancel_order orders oid sender = .error .OrderFulfilled) ∧
    (o.status ≠ .Fulfilled → o.status = .Filling →
      cancel_order orders oid sender = .error .OrderIsFilling) ∧
    (o.status ≠ .Fulfilled → o.status ≠ .Filling → o.bidder_addr ≠ sender →
      cancel_order orders oid sender = .error .Unauthorized) ∧
    (o.status ≠ .Fulfilled → o.status ≠ .Filling → o.bidder_addr = sender →
      o.filled_offer_amount ≤ o.offer_amount →
      cancel_order orders oid sender =
        .ok
          (if 0 < o.offer_amount - o.filled_offer_amount then
            [⟨(match o.direction with | .Buy => 1 | .Sell => 0),
              o.offer_amount - o.filled_offer_amount, sender⟩]
          else [],
          orders.eraseP (fun x => x.order_id == oid))) := by
  unfold cancel_order
  rw [hfind]
  refine ⟨fun h => ?_, fun h1 h2 => ?_, fun h1 h2 h3 => ?_, fun h1 h2 h3 h4 => ?_⟩
  · simp [h]
  · simp [h1, h2]
  · simp [h1, h2, h3]
  · simp [h1, h2, h3, h4]

/-- Claim C7 witness: cancelling an Open, unfilled Sell order by its bidder
refunds exactly the offer amount and removes the order. -/
theorem cancel_order_spec_witness :
    cancel_order [⟨7, .Sell, 9, 100, 50, 0, 0, .Open⟩] 7 9 =
      .ok ([⟨0, 100, 9⟩], []) := by
  have h := (cancel_order_spec [⟨7, .Sell, 9, 100, 50, 0, 0, .Open⟩] 7 9
    ⟨7, .Sell, 9, 100, 50, 0, 0, .Open⟩ (by decide)).2.2.2
    (by decide) (by decide) rfl (by decide)
  exact h.trans (by rfl)

/-- Complete case analysis of `compute_swap`: zero offer pool, a runtime
panic, or success with the truncated constant-product formulas. -/
theorem compute_swap_cases (op ap oa rate : Nat) :
    (op = 0 ∧ compute_swap op ap oa rate = .error .OfferPoolIsZero) ∨
    (op ≠ 0 ∧ compute_swap op ap oa rate = .error .Panic) ∨
    (op ≠ 0 ∧ compute_swap op ap oa rate =
      .ok ((swapReturnRaw op ap oa - swapCommissionAmt op ap oa rate) % U128,
           (swapSpreadLhs op ap oa - swapReturnRaw op ap oa) % U128,
           swapCommissionAmt op ap oa rate % U128)) := by
  by_cases h0 : op = 0
  · exact Or.inl ⟨h0, by simp [compute_swap, h0]⟩
  · right
    simp only [compute_swap, u256Mul, u256Sub, dec256FromRat, u256MulDec, multiplyRatioU256]
    repeat' first
      | simp only [bindOkHelper, bindErrHelper]
      | split
    all_goals try exact absurd (show op = 0 by assumption) h0
    all_goals try exact Or.inl ⟨h0, trivial⟩
    all_goals refine Or.inr ⟨h0, ?_⟩
    all_goals simp only [one_mul, scaled_div_cancel, swapReturnRaw, swapSpreadLhs,
      swapCommissionAmt]

/-- Claim C4 (amended): `compute_swap` returns the `OfferPoolIsZero` error
exactly when the offer pool is zero, and on success the returned triple is
the truncated constant-product formula reduced mod `2^128` (pre-commission
return `ask_pool - floor (k / (offer_pool + offer_amount))`, spread the
truncated linear value minus that return, commission its truncated product
with the rate, final return the pre-commission return minus commission).  A
nonzero offer pool does not guarantee success: the spread subtraction can
panic (see `c4_nonzero_pool_panic`). -/
theorem compute_swap_spec (op ap oa rate : Nat) :
    (compute_swap op ap oa rate = .error .OfferPoolIsZero ↔ op = 0) ∧
    (∀ r s c, compute_swap op ap oa rate = .ok (r, s, c) →
      r = (swapReturnRaw op ap oa - swapCommissionAmt op ap oa rate) % U128 ∧
      s = (swapSpreadLhs op ap oa - swapReturnRaw op ap oa) % U128 ∧
      c = swapCommissionAmt op ap oa rate % U128) := by
  rcases compute_swap_cases op ap oa rate with ⟨h0, heq⟩ | ⟨h0, heq⟩ | ⟨h0, heq⟩
  · exact ⟨⟨fun _ => h0, fun _ => heq⟩,
      fun r s c h => by rw [heq] at h; simp at h⟩
  · refine ⟨⟨fun h => ?_, fun h => absurd h h0⟩, fun r s c h => ?_⟩
    · rw [heq] at h; simp at h
    · rw [heq] at h; simp at h
  · refine ⟨⟨fun h => ?_, fun h => absurd h h0⟩, fun r s c h => ?_⟩
    · rw [heq] at h; simp at h
    · rw [heq] at h
      simp only [Except.ok.injEq, Prod.mk.injEq] at h
      exact ⟨h.1.symm, h.2.1.symm, h.2.2.symm⟩

/-- Claim C4 witness: the standard 200/200 pool with offer 100 and rate
0.003 succeeds and matches the truncated formulas. -/
theorem compute_swap_spec_witness :
    compute_swap 200 200 100 3000000000000000 = .ok (67, 33, 0) ∧
    67 = (swapReturnRaw 200 200 100 - swapCommissionAmt 200 200 100 3000000000000000) % U128 ∧
    33 = (swapSpreadLhs 200 200 100 - swapReturnRaw 200 200 100) % U128 ∧
    0 = swapCommissionAmt 200 200 100 3000000000000000 % U128 := by
  have h := (compute_swap_spec 200 200 100 3000000000000000).2 67 33 0 (by rfl)
  exact ⟨by rfl, h.1, h.2.1, h.2.2⟩

/-- Claim C4 counterexample: with offer_pool 3, ask_pool 2, offer_amount 1
and rate 0.003 the spread subtraction underflows and the call aborts even
though the offer pool is nonzero, refuting failure-iff-zero-pool. -/
theorem c4_nonzero_pool_panic :
    compute_swap 3 2 1 3000000000000000 = .error .Panic ∧ (3 : Nat) ≠ 0 := by
  exact ⟨by rfl, by decide⟩

/-- Claim C5 counterexample: `compute_swap 200 200 100 0.003` returns
return_amount 67, not 66: the truncated pre-commission return is
`200 - floor (40000 / 300) = 67` and the commission `floor (67 * 0.003)`
truncates to 0. -/
theorem c5_return_is_67_not_66 :
    compute_swap 200 200 100 3000000000000000 = .ok (67, 33, 0) ∧ (67 : Nat) ≠ 66 := by
  exact ⟨by rfl, by decide⟩

/-- Claim C5 (amended): the scenario returns (67, 33, 0), and
`return_amount + commission_amount = raw pre-commission return` holds
bit-for-bit under the truncation rule: 67 + 0 = 67. -/
theorem c5_scenario_truncated :
    compute_swap 200 200 100 3000000000000000 = .ok (67, 33, 0) ∧
    swapReturnRaw 200 200 100 = 67 ∧
    67 + 0 = swapReturnRaw 200 200 100 ∧
    swapCommissionAmt 200 200 100 3000000000000000 = 0 ∧
    swapSpreadLhs 200 200 100 - swapReturnRaw 200 200 100 = 33 := by
  refine ⟨by rfl, by decide, by decide, by decide, by decide⟩

/-- Complete case analysis of `compute_offer_amount`: a runtime panic, the
`TooSmallOfferAmount` error together with a zero computed spread or
commission, or success with nonzero spread and commission. -/
theorem compute_offer_cases (op ap aa rate : Nat) :
    compute_offer_amount op ap aa rate = .error .Panic ∨
    (compute_offer_amount op ap aa rate = .error .TooSmallOfferAmount ∧
      (offerSpreadAmt op ap aa rate = 0 ∨ offerCommissionAmt aa rate = 0)) ∨
    (compute_offer_amount op ap aa rate =
        .ok (offerSolved op ap aa rate % U128,
             offerSpreadAmt op ap aa rate % U128,
             offerCommissionAmt aa rate % U128) ∧
      ¬(offerSpreadAmt op ap aa rate = 0 ∨ offerCommissionAmt aa rate = 0)) := by
  simp only [compute_offer_amount, u256Mul, u256Sub, dec256FromRat, u256MulDec,
    multiplyRatioU256]
  repeat' first
    | simp only [bindOkHelper, bindErrHelper]
    | split
  all_goals try exact Or.inl trivial
  all_goals simp_all [offerSolved, offerSpreadAmt, offerCommissionAmt, beforeCommission,
    invOneMinusComm, one_mul, scaled_div_cancel]

/-- Claim C6: `compute_offer_amount` fails with `TooSmallOfferAmount`
exactly when the computed spread amount or the computed commission amount is
zero (among non-panicking executions); otherwise it returns the offer amount
solved from the constant product with the commission grossed up before
solving (`cp / (ask_pool - ask_amount / (1 - rate)) - offer_pool` under the
truncation rules, reduced mod `2^128` by the downcast). -/
theorem compute_offer_amount_spec (op ap aa rate : Nat) :
    (∀ o s c, compute_offer_amount op ap aa rate = .ok (o, s, c) →
      o = offerSolved op ap aa rate % U128 ∧
      s = offerSpreadAmt op ap aa rate % U128 ∧
      c = offerCommissionAmt aa rate % U128 ∧
      offerSpreadAmt op ap aa rate ≠ 0 ∧ offerCommissionAmt aa rate ≠ 0) ∧
    (compute_offer_amount op ap aa rate = .error .TooSmallOfferAmount ↔
      compute_offer_amount op ap aa rate ≠ .error .Panic ∧
      (offerSpreadAmt op ap aa rate = 0 ∨ offerCommissionAmt aa rate = 0)) := by
  rcases compute_offer_cases op ap aa rate with heq | ⟨heq, hz⟩ | ⟨heq, hz⟩
  · refine ⟨fun o s c h => ?_, ?_⟩
    · rw [heq] at h; simp at h
    · rw [heq]; simp
  · refine ⟨fun o s c h => ?_, ?_⟩
    · rw [heq] at h; simp at h
    · rw [heq]; simp [hz]
  · push_neg at hz
    refine ⟨fun o s c h => ?_, ?_⟩
    · rw [heq] at h
      simp only [Except.ok.injEq, Prod.mk.injEq] at h
      exact ⟨h.1.symm, h.2.1.symm, h.2.2.symm, hz.1, hz.2⟩
    · rw [heq]; simp [hz.1, hz.2]

/-- Claim C6 witness: pools 200000/200000, desired ask 660, rate 0.003:
the call succeeds with offer 663, spread 2, commission 1, all nonzero. -/
theorem compute_offer_amount_spec_witness :
    compute_offer_amount 200000 200000 660 3000000000000000 = .ok (663, 2, 1) ∧
    663 = offerSolved 200000 200000 660 3000000000000000 % U128 ∧
    offerSpreadAmt 200000 200000 660 3000000000000000 ≠ 0 ∧
    offerCommissionAmt 660 3000000000000000 ≠ 0 := by
  have h := (compute_offer_amount_spec 200000 200000 660 3000000000000000).1 663 2 1 (by rfl)
  exact ⟨by rfl, h.1, h.2.2.2.1, h.2.2.2.2⟩

/-- Claim C8: a converter pair registered with from.decimals 6 and
to.decimals 18 stores the ratio 10^12 (atomics `10^12 * 10^18`); converting
amount 5 forwards `5 * 10^12`, and converting that back through the checked
division yields exactly 5. -/
theorem converter_round_trip :
    update_pair_rate 6 18 = 10 ^ 12 * decOne ∧
    convert_amount 5 (update_pair_rate 6 18) = 5 * 10 ^ 12 ∧
    checked_div_decimal (5 * 10 ^ 12) (update_pair_rate 6 18) = some 5 := by
  refine ⟨by decide, by decide, by decide⟩
